import Mathlib

/-
Shallow embedding of the physics-formulation layer of the varglas repository
(src/src/physics.py).  Pure per-dof array updates become functions on lists of
rationals, the string-keyed configuration dispatches become functions on
strings, fallible Python evaluation becomes Except, and the order of the
imperative statements inside each solve() is captured either by explicit
sequential state updates or by a trace of abstract steps.
-/

/-- Ways a Python statement of this module aborts: `exit(1)` (modelled as
`sysExit 1`), the TypeError raised by applying unary `+` to a `str`, and a
NameError on an unbound local name. -/
inductive PyAbort where
  | sysExit (code : Nat)
  | typeErrorUnaryPlusStr
  | nameError (missing : String)
deriving DecidableEq

deriving instance DecidableEq for Except

/- ----------------------------------------------------------------------
   Viscosity-mode dispatch (VelocityStokes.__init__ lines 273-316 and
   VelocityBP.__init__ lines 639-698).  Each branch of the if/elif chain
   rebinds the local hardness coefficients b_shf / b_gnd; the final `else`
   only prints a diagnostic and continues, so the coefficients keep the
   values read from the model at the top of the constructor.
   ---------------------------------------------------------------------- -/

/-- Symbolic description of where a hardness coefficient comes from after the
viscosity-mode dispatch. -/
inductive BCoeff where
  | storedShf       -- value read from model.b_shf at the top of __init__
  | storedGnd       -- value read from model.b_gnd at the top of __init__
  | isoFromConfigA  -- A**(-1/n) with the scalar rate factor from config
  | configEtaShf    -- config eta_shf, used directly ('linear')
  | configEtaGnd    -- config eta_gnd, used directly ('linear')
  | configBShf      -- config b_shf, used directly ('b_control')
  | configBGnd      -- config b_gnd, used directly ('b_control')
  | configConstB    -- config b, used directly ('constant_b')
  | fullThermo      -- the full temperature/water-content formula with model E
  | eCtrlShf        -- full formula with config E_shf ('E_control')
  | eCtrlGnd        -- full formula with config E_gnd ('E_control')
deriving DecidableEq

/-- Outcome of the viscosity-mode if/elif chain: the two coefficients, whether
`n` was rebound to 1.0 (the 'linear' branch), and whether the final `else`
branch printed its diagnostic and fell through. -/
structure ViscDispatch where
  b_shf : BCoeff
  b_gnd : BCoeff
  nForcedToOne : Bool
  fellThroughDiagnostic : Bool
deriving DecidableEq

/-- The six mode strings recognized by both momentum-balance constructors. -/
def recognizedViscosityModes : List String :=
  ["isothermal", "linear", "b_control", "constant_b", "full", "E_control"]

/-- The viscosity-mode dispatch of VelocityStokes.__init__ (lines 273-316).
No branch raises or exits; the `else` branch prints and continues with the
stored coefficients. -/
def stokesViscDispatch (mode : String) : Except PyAbort ViscDispatch :=
  if mode = "isothermal" then .ok ⟨.isoFromConfigA, .isoFromConfigA, false, false⟩
  else if mode = "linear" then .ok ⟨.configEtaShf, .configEtaGnd, true, false⟩
  else if mode = "b_control" then .ok ⟨.configBShf, .configBGnd, false, false⟩
  else if mode = "constant_b" then .ok ⟨.configConstB, .configConstB, false, false⟩
  else if mode = "full" then .ok ⟨.fullThermo, .fullThermo, false, false⟩
  else if mode = "E_control" then .ok ⟨.eCtrlShf, .eCtrlGnd, false, false⟩
  else .ok ⟨.storedShf, .storedGnd, false, true⟩

/-- The viscosity-mode dispatch of VelocityBP.__init__ (lines 639-698); same
chain and same print-and-continue `else` branch. -/
def bpViscDispatch (mode : String) : Except PyAbort ViscDispatch :=
  if mode = "isothermal" then .ok ⟨.isoFromConfigA, .isoFromConfigA, false, false⟩
  else if mode = "linear" then .ok ⟨.configEtaShf, .configEtaGnd, true, false⟩
  else if mode = "b_control" then .ok ⟨.configBShf, .configBGnd, false, false⟩
  else if mode = "constant_b" then .ok ⟨.configConstB, .configConstB, false, false⟩
  else if mode = "full" then .ok ⟨.fullThermo, .fullThermo, false, false⟩
  else if mode = "E_control" then .ok ⟨.eCtrlShf, .eCtrlGnd, false, false⟩
  else .ok ⟨.storedShf, .storedGnd, false, true⟩

/-- Temperature-dependent rate constant `a_T = conditional(lt(T, 263.15),
1.1384496e-5, 5.45e10)` (physics.py lines 297, 676). -/
noncomputable def a_T (T : ℝ) : ℝ := if T < 263.15 then 1.1384496e-5 else 5.45e10

/-- Temperature-dependent activation energy `Q_T = conditional(lt(T, 263.15),
6e4, 13.9e4)` (physics.py lines 298, 677). -/
noncomputable def Q_T (T : ℝ) : ℝ := if T < 263.15 then 6e4 else 13.9e4

/-- The full-thermodynamic hardness coefficient
`b = (E*(a_T*(1 + 181.25*W))*exp(-Q_T/(R*T)))**(-1/n)`
(physics.py lines 299, 678).  In VelocityStokes the W argument is the model
water content W; in VelocityBP it is the rheology-capped W_r. -/
noncomputable def b_fullThermo (E W R T n : ℝ) : ℝ :=
  (E * (a_T T * (1 + 181.25 * W)) * Real.exp (-Q_T T / (R * T))) ^ (-1 / n)

/- ----------------------------------------------------------------------
   The full-Stokes variational sum (VelocityStokes.__init__ lines 352-354)
   references the name `Sl`, which is bound nowhere in the constructor
   (only Sl_gnd and Sl_shf are).  We model the local environment and the
   left-to-right name evaluation of the sum expression.
   ---------------------------------------------------------------------- -/

/-- Local names bound in VelocityStokes.__init__ in every viscosity mode,
before the variational sum at lines 352-354 is evaluated. -/
def stokesLocalEnvBase : List String :=
  ["model", "config", "mesh", "r", "V", "Q", "Q4", "n", "b", "b_shf", "b_gnd",
   "eta_shf", "eta_gnd", "T", "gamma", "S", "B", "H", "x", "E", "W", "R",
   "epsdot", "eps_reg", "rhoi", "rhow", "g", "Pe", "Sl_gnd", "Sl_shf", "Pc",
   "Nc", "Pb", "Lsq", "beta", "gradS", "gradB", "newton_params", "D", "N",
   "Phi", "dU", "U", "phi", "psi", "xsi", "kappa", "du", "dv", "dw", "dP",
   "u", "v", "w", "P", "dx", "dx_s", "dx_g", "ds", "dGnd", "dFlt", "dSde",
   "dBed", "term", "Vd_shf", "Vd_gnd", "tau", "h"]

/-- Extra local names bound by the branch of the viscosity-mode chain that the
given mode selects. -/
def stokesModeExtraNames (mode : String) : List String :=
  if mode = "isothermal" then ["A0"]
  else if mode = "linear" then []
  else if mode = "b_control" then []
  else if mode = "constant_b" then []
  else if mode = "full" then ["a_T", "Q_T"]
  else if mode = "E_control" then ["a_T", "Q_T", "E_shf", "E_gnd"]
  else []

/-- The local environment of VelocityStokes.__init__ at lines 352-354. -/
def stokesEnv (mode : String) : List String :=
  stokesLocalEnvBase ++ stokesModeExtraNames mode

/-- The names referenced, in left-to-right evaluation order, by the
variational-sum expression
`A = Vd_shf*dx_s + Vd_gnd*dx_g + (Pe + Pc + Lsq)*dx + Sl*dGnd + Nc*dBed`
(lines 353-354). -/
def stokesATermNames : List String :=
  ["Vd_shf", "dx_s", "Vd_gnd", "dx_g", "Pe", "Pc", "Lsq", "dx",
   "Sl", "dGnd", "Nc", "dBed"]

/-- Evaluate a list of names left to right against an environment; the first
unbound name raises a NameError, as in Python. -/
def evalNames (env : List String) : List String → Except PyAbort Unit
  | [] => .ok ()
  | nm :: rest => if nm ∈ env then evalNames env rest else .error (.nameError nm)

/-- Evaluation of the name references of the variational sum of
VelocityStokes.__init__ in the environment the given viscosity mode leaves. -/
def buildStokesA (mode : String) : Except PyAbort Unit :=
  evalNames (stokesEnv mode) stokesATermNames

/-- The grounded-bed sliding dissipation defined (but then never referenced)
at line 335: `Sl_gnd = 0.5 * beta**2 * H**r * (u**2 + v**2 + w**2)`. -/
def slGndTerm (beta H : ℚ) (r : ℕ) (u v w : ℚ) : ℚ :=
  0.5 * beta ^ 2 * H ^ r * (u ^ 2 + v ^ 2 + w ^ 2)

/- ----------------------------------------------------------------------
   Adjoint calibration (AdjointVelocity.__init__ lines 1947-2038).
   ---------------------------------------------------------------------- -/

/-- The four objective functionals recognized at lines 1981-2001. -/
inductive ObjectiveKind where
  | logarithmic | kinematic | linear | logLinHybrid
deriving DecidableEq

/-- The recognized objective-function selector strings. -/
def recognizedObjectives : List String :=
  ["logarithmic", "kinematic", "linear", "log_lin_hybrid"]

/-- The objective-function dispatch at lines 1981-2007: the final `else`
branch prints a diagnostic and calls `exit(1)`. -/
def objectiveDispatch (name : String) : Except PyAbort ObjectiveKind :=
  if name = "logarithmic" then .ok .logarithmic
  else if name = "kinematic" then .ok .kinematic
  else if name = "linear" then .ok .linear
  else if name = "log_lin_hybrid" then .ok .logLinHybrid
  else .error (.sysExit 1)

/-- Python 2 unary `+` applied to a `str` raises a TypeError. -/
def unaryPlusStr (_s : String) : Except PyAbort String :=
  .error .typeErrorUnaryPlusStr

/-- The diagnostic string the regularization `else` branch (lines 1975-1976)
tries to build: the previous line ends in `+` and the continuation line starts
with another `+`, so the expression is `str + (+ str)` and raises a TypeError
before the message is ever printed. -/
def regFallthroughMsg : Except PyAbort String :=
  (unaryPlusStr " defaulting to no regularization.").map
    (fun t => "Valid regularizations are TV and Tikhonov;" ++ t)

/-- The kind of regularization term a loop iteration binds to `R`. -/
inductive RegKind where
  | tv | tikhonov | zero
deriving DecidableEq

/-- One iteration body of the regularization dispatch (lines 1968-1978): `TV`
and `Tikhonov` build their term; any other selector first evaluates the
diagnostic string (which raises) and only then would bind the
zero-regularization fallback. -/
def regBranch (regType : String) : Except PyAbort RegKind :=
  if regType = "TV" then .ok .tv
  else if regType = "Tikhonov" then .ok .tikhonov
  else regFallthroughMsg.map (fun _ => .zero)

/-- A regularization term as bound to `R`: its kind, the index of the control
field it penalizes, and its weight (the user weight halved, from
`Constant(0.5*a)`). -/
structure RegTermOf where
  kind : RegKind
  control : Nat
  weight : ℚ
deriving DecidableEq

/-- The kind of term each recognized selector builds. -/
def regKindOf (regType : String) : RegKind :=
  if regType = "TV" then .tv
  else if regType = "Tikhonov" then .tikhonov
  else .zero

/-- The `for a,c in zip(alpha,control)` loop of lines 1963-1978: each
iteration rebinds `R` to the term of the current (weight, control) pair,
overwriting the previous iteration's term. -/
def regLoop (regType : String) : List (ℚ × Nat) → Option RegTermOf →
    Except PyAbort (Option RegTermOf)
  | [], acc => .ok acc
  | p :: ps, _ =>
      (regBranch regType).bind
        (fun k => regLoop regType ps (some ⟨k, p.2, (1/2) * p.1⟩))

/-- The regularization terms actually contained in the augmented objective
`I`: whatever the loop left bound to `R` (at most one term). -/
def includedRegTerms (regType : String) (pairs : List (ℚ × Nat)) :
    Except PyAbort (List RegTermOf) :=
  (regLoop regType pairs none).map Option.toList

/-- The regularization content claimed by the spec: one term per control
field, each scaled by its own (halved) weight. -/
def claimRegTerms (regType : String) (pairs : List (ℚ × Nat)) : List RegTermOf :=
  pairs.map (fun p => ⟨regKindOf regType, p.2, (1/2) * p.1⟩)

/- ----------------------------------------------------------------------
   Enthalpy post-solve diagnostics.
   Continuous variant: Enthalpy.solve lines 1343-1378.
   Discontinuous variant: EnthalpyDG.solve lines 1664-1686.
   Per degree of freedom, hv is the dof value of H and t0 the dof value of
   the pressure-melting temperature T0.
   ---------------------------------------------------------------------- -/

/-- Continuous-variant temperature dof update (lines 1346-1353): `T_n = H/ci`;
where `T_n >= T0` the value is replaced by `T0`. -/
def enthTempDof (ci hv t0 : ℚ) : ℚ :=
  if t0 ≤ hv / ci then t0 else hv / ci

/-- Discontinuous-variant temperature dof update (lines 1665-1672); the array
operations are the same as the continuous variant's. -/
def enthTempDofDG (ci hv t0 : ℚ) : ℚ :=
  if t0 ≤ hv / ci then t0 else hv / ci

/-- Continuous-variant water-content dof update (lines 1366-1371):
`W_n = (H - ci*T0)/L`, zeroed on cold dofs (`T_n < T0`), then every entry
above 1.00 is set to 1.00. -/
def enthWaterContDof (ci L hv t0 : ℚ) : ℚ :=
  let w := (hv - ci * t0) / L
  let w1 := if hv / ci < t0 then 0 else w
  if 1 < w1 then 1 else w1

/-- Discontinuous-variant water-content dof update (lines 1676-1680): zeroed
on cold dofs but never capped above. -/
def enthWaterDGDof (ci L hv t0 : ℚ) : ℚ :=
  if hv / ci < t0 then 0 else (hv - ci * t0) / L

/-- The rheology cap applied to the water-content array before it is stored
as W_r (lines 1377, 1685): entries above 0.01 are set to 0.01. -/
def capRheologyDof (x : ℚ) : ℚ :=
  if 0.01 < x then 0.01 else x

/-- Temperature diagnostic over all dofs, continuous variant. -/
def enthalpyTemps (ci : ℚ) (H T0 : List ℚ) : List ℚ :=
  List.zipWith (enthTempDof ci) H T0

/-- Temperature diagnostic over all dofs, discontinuous variant. -/
def enthalpyTempsDG (ci : ℚ) (H T0 : List ℚ) : List ℚ :=
  List.zipWith (enthTempDofDG ci) H T0

/-- Water-content diagnostic over all dofs, continuous variant. -/
def enthalpyWatersCont (ci L : ℚ) (H T0 : List ℚ) : List ℚ :=
  List.zipWith (enthWaterContDof ci L) H T0

/-- Water-content diagnostic over all dofs, discontinuous variant. -/
def enthalpyWatersDG (ci L : ℚ) (H T0 : List ℚ) : List ℚ :=
  List.zipWith (enthWaterDGDof ci L) H T0

/-- The model fields an enthalpy solve reads and writes. -/
structure EnthFields where
  T : List ℚ
  W : List ℚ
  W0 : List ℚ
  W_r : List ℚ
deriving DecidableEq

/-- The post-solve field updates of Enthalpy.solve, in source order
(lines 1343-1378): assign T; assign W0 from the current W; overwrite W with
the capped diagnostic array; assign W_r from the further-capped array. -/
def enthalpySolveCont (ci L : ℚ) (H T0 : List ℚ) (st : EnthFields) : EnthFields :=
  let Tnew := enthalpyTemps ci H T0
  let Wv := enthalpyWatersCont ci L H T0
  let st1 := { st with T := Tnew }
  let st2 := { st1 with W0 := st1.W }
  let st3 := { st2 with W := Wv }
  { st3 with W_r := Wv.map capRheologyDof }

/-- The post-solve field updates of EnthalpyDG.solve, in source order
(lines 1664-1686). -/
def enthalpySolveDG (ci L : ℚ) (H T0 : List ℚ) (st : EnthFields) : EnthFields :=
  let Tnew := enthalpyTempsDG ci H T0
  let Wv := enthalpyWatersDG ci L H T0
  let st1 := { st with T := Tnew }
  let st2 := { st1 with W0 := st1.W }
  let st3 := { st2 with W := Wv }
  { st3 with W_r := Wv.map capRheologyDof }

/- ----------------------------------------------------------------------
   FreeSurface.solve (lines 1842-1889).
   ---------------------------------------------------------------------- -/

/-- Symbolic value stored in model.dSdt: the result of the mass/stiffness
system (lumped elementwise update or full linear solve), or the result of the
second linear projection applied to a rate field. -/
inductive FSVal where
  | msResult (lumped : Bool)
  | projResult (rate : FSVal)
deriving DecidableEq

/-- The single piece of model state FreeSurface.solve writes that we track. -/
structure FSState where
  dSdt : Option FSVal
deriving DecidableEq

/-- Lines 1879-1883: dSdt is written with the mass/stiffness result. -/
def fsMassStiffnessSolve (lumped : Bool) (_st : FSState) : FSState :=
  ⟨some (.msResult lumped)⟩

/-- Lines 1885-1889: the second linear system A_pro, whose right-hand side
reads the current dSdt, is solved for q, and q is then assigned to dSdt. -/
def fsProjectionAssign (st : FSState) : FSState :=
  ⟨match st.dSdt with
    | some r => some (.projResult r)
    | none => none⟩

/-- FreeSurface.solve: mass/stiffness solve into dSdt, then the projection
solve whose result is assigned back into dSdt. -/
def fsSolve (lumped : Bool) (st : FSState) : FSState :=
  fsProjectionAssign (fsMassStiffnessSolve lumped st)

/-- The steps of FreeSurface.solve in source order. -/
inductive FSStep where
  | assembleMass
  | assembleStiffness
  | assembleLumpedMass
  | applyStaticBoundary
  | subtractShockDiffusion
  | writeDSdtFromMassStiffness
  | solveProjection
  | writeDSdtFromProjection
deriving DecidableEq

/-- The trace of FreeSurface.solve (lines 1860-1889) under the three
configuration flags lump_mass_matrix, static_boundary_conditions and
use_shock_capturing. -/
def fsSolveTrace (lump staticBC shock : Bool) : List FSStep :=
  [.assembleMass, .assembleStiffness]
    ++ (if lump then [.assembleLumpedMass] else [])
    ++ (if staticBC then [.applyStaticBoundary] else [])
    ++ (if shock then [.subtractShockDiffusion] else [])
    ++ [.writeDSdtFromMassStiffness]
    ++ [.solveProjection, .writeDSdtFromProjection]

/- ----------------------------------------------------------------------
   VelocityBP.solve (lines 881-918) and the statistical beta updates
   (lines 786-794 in __init__, lines 905-911 in solve()).
   ---------------------------------------------------------------------- -/

/-- The steps of VelocityBP.solve in source order. -/
inductive BPStep where
  | newtonSolveHorizontal
  | linearSolveVertical
  | reevalStatBeta
  | calcPressure
deriving DecidableEq

/-- The trace of VelocityBP.solve: Newton solve of the horizontal velocity,
linear solve of the vertical velocity, the statistical-beta re-evaluation
exactly when init_beta_from_stats is configured, then pressure recovery. -/
def bpSolveSteps (initBetaFromStats : Bool) : List BPStep :=
  [.newtonSolveHorizontal, .linearSolveVertical]
    ++ (if initBetaFromStats then [.reevalStatBeta] else [])
    ++ [.calcPressure]

/-- The clamp `beta_v[beta_v < 0.0] = 0.0` applied to the projected values of
the statistical expression beta_f. -/
def clampNonneg (v : List ℚ) : List ℚ :=
  v.map (fun x => if x < 0 then 0 else x)

/-- The beta initialization of VelocityBP.__init__ (lines 791-794): project
the polynomial expression beta_f and clamp negatives to zero. -/
def bpInitStatBeta (projBetaF : List ℚ) : List ℚ :=
  clampNonneg projBetaF

/-- The beta re-evaluation of VelocityBP.solve (lines 908-911): project the
same stored expression self.beta_f and clamp negatives to zero. -/
def bpReevalStatBeta (projBetaF : List ℚ) : List ℚ :=
  clampNonneg projBetaF

/- ----------------------------------------------------------------------
   Helper lemmas (shared).
   ---------------------------------------------------------------------- -/

lemma regBranch_recognized (rt : String) (h : rt = "TV" ∨ rt = "Tikhonov") :
    regBranch rt = .ok (regKindOf rt) := by
  rcases h with h | h <;> subst h <;> decide

lemma regLoop_append_last (rt : String) (hb : regBranch rt = .ok (regKindOf rt)) :
    ∀ (pre : List (ℚ × Nat)) (a : ℚ) (c : Nat) (acc : Option RegTermOf),
      regLoop rt (pre ++ [(a, c)]) acc
        = .ok (some ⟨regKindOf rt, c, (1/2) * a⟩) := by
  intro pre
  induction pre with
  | nil =>
      intro a c acc
      simp [regLoop, hb, Except.bind]
  | cons p ps ih =>
      intro a c acc
      simp only [List.cons_append, regLoop, hb, Except.bind]
      exact ih a c _

lemma clampNonneg_mem_nonneg (v : List ℚ) (x : ℚ) (hx : x ∈ clampNonneg v) :
    0 ≤ x := by
  unfold clampNonneg at hx
  rcases List.mem_map.mp hx with ⟨y, _, rfl⟩
  split_ifs with h
  · exact le_refl 0
  · exact le_of_not_lt h

lemma capRheologyDof_bounds (x : ℚ) (hx : 0 ≤ x) :
    0 ≤ capRheologyDof x ∧ capRheologyDof x ≤ 0.01 := by
  unfold capRheologyDof
  split_ifs with h
  · norm_num
  · exact ⟨hx, le_of_not_lt h⟩

lemma warm_water_nonneg (ci L hv t0 : ℚ) (hci : 0 < ci) (hL : 0 < L)
    (h : ¬ hv / ci < t0) : 0 ≤ (hv - ci * t0) / L := by
  push_neg at h
  rw [le_div_iff₀ hci] at h
  apply div_nonneg _ hL.le
  nlinarith

/- ----------------------------------------------------------------------
   Claim theorems.
   ---------------------------------------------------------------------- -/

/-- Claim C1 (code evidence): in every viscosity mode, evaluating the
variational-sum expression of VelocityStokes.__init__ (lines 353-354) raises
a NameError on the unbound name Sl, so the functional A is never built; the
grounded-bed sliding dissipation that was defined just above it (line 335)
is exactly the claimed 0.5*beta^2*H^r*(u^2+v^2+w^2). -/
theorem C1_stokes_A_nameError :
    (∀ mode : String, buildStokesA mode = .error (.nameError "Sl")) ∧
    (∀ (beta H u v w : ℚ) (r : ℕ),
      slGndTerm beta H r u v w
        = 0.5 * beta ^ 2 * H ^ r * (u ^ 2 + v ^ 2 + w ^ 2)) := by
  constructor
  · intro mode
    unfold buildStokesA stokesEnv stokesModeExtraNames
    split_ifs <;> decide
  · intro beta H u v w r
    rfl

/-- Claim C2 counterexample: with the unrecognized mode string "bogus", both
momentum-balance dispatches return normally (no abort, no exception) and the
hardness coefficients silently default to the previously stored model
values. -/
theorem C2_counterexample :
    stokesViscDispatch "bogus" = .ok ⟨.storedShf, .storedGnd, false, true⟩ ∧
    bpViscDispatch "bogus" = .ok ⟨.storedShf, .storedGnd, false, true⟩ := by
  constructor <;> decide

/-- Claim C2 (amended): for every unrecognized viscosity_mode string, both
momentum-balance constructors print a diagnostic and continue without
aborting, leaving the hardness coefficients at the previously stored model
values. -/
theorem C2_unrecognized_mode_falls_through (mode : String)
    (h : mode ∉ recognizedViscosityModes) :
    stokesViscDispatch mode = .ok ⟨.storedShf, .storedGnd, false, true⟩ ∧
    bpViscDispatch mode = .ok ⟨.storedShf, .storedGnd, false, true⟩ := by
  have h1 : mode ≠ "isothermal" := fun e => h (by rw [e]; decide)
  have h2 : mode ≠ "linear" := fun e => h (by rw [e]; decide)
  have h3 : mode ≠ "b_control" := fun e => h (by rw [e]; decide)
  have h4 : mode ≠ "constant_b" := fun e => h (by rw [e]; decide)
  have h5 : mode ≠ "full" := fun e => h (by rw [e]; decide)
  have h6 : mode ≠ "E_control" := fun e => h (by rw [e]; decide)
  constructor <;>
    simp [stokesViscDispatch, bpViscDispatch, h1, h2, h3, h4, h5, h6]

/-- Witness for C2: the amended theorem applied at the concrete unrecognized
mode "bogus". -/
theorem C2_unrecognized_mode_falls_through_witness :
    "bogus" ∉ recognizedViscosityModes ∧
    stokesViscDispatch "bogus" = .ok ⟨.storedShf, .storedGnd, false, true⟩ :=
  ⟨by decide, (C2_unrecognized_mode_falls_through "bogus" (by decide)).1⟩

/-- Claim C3: an unrecognized objective_function selector prints and calls
exit(1); an unrecognized regularization_type selector raises a TypeError
while building its diagnostic string (the `+ +` slip at lines 1975-1976),
so construction aborts before solve in both cases, and the
zero-regularization fallback value is never produced. -/
theorem C3_unrecognized_selectors_fatal :
    (∀ s : String, s ≠ "TV" → s ≠ "Tikhonov" →
        regBranch s = .error .typeErrorUnaryPlusStr) ∧
    (∀ (s : String) (k : RegKind), regBranch s = .ok k → k ≠ RegKind.zero) ∧
    (∀ s : String, s ∉ recognizedObjectives →
        objectiveDispatch s = .error (.sysExit 1)) := by
  refine ⟨?_, ?_, ?_⟩
  · intro s h1 h2
    simp [regBranch, h1, h2, regFallthroughMsg, unaryPlusStr, Except.map]
  · intro s k hk
    unfold regBranch at hk
    split_ifs at hk
    · cases hk; decide
    · cases hk; decide
    · simp [regFallthroughMsg, unaryPlusStr, Except.map] at hk
  · intro s hs
    have h1 : s ≠ "logarithmic" := fun e => hs (by rw [e]; decide)
    have h2 : s ≠ "kinematic" := fun e => hs (by rw [e]; decide)
    have h3 : s ≠ "linear" := fun e => hs (by rw [e]; decide)
    have h4 : s ≠ "log_lin_hybrid" := fun e => hs (by rw [e]; decide)
    simp [objectiveDispatch, h1, h2, h3, h4]

/-- Witness for C3: the theorem applied at the concrete unrecognized selector
"bogus". -/
theorem C3_unrecognized_selectors_fatal_witness :
    regBranch "bogus" = .error .typeErrorUnaryPlusStr ∧
    objectiveDispatch "bogus" = .error (.sysExit 1) :=
  ⟨C3_unrecognized_selectors_fatal.1 "bogus" (by decide) (by decide),
   C3_unrecognized_selectors_fatal.2.2 "bogus" (by decide)⟩

/-- Claim C4 counterexample: in the discontinuous variant, with ci = L = 1,
a dof with H = 3 and T0 = 1 is warm and gets the uncapped water content
(3 - 1)/1 = 2, so the stored W exceeds 1. -/
theorem C4_counterexample :
    (enthalpySolveDG 1 1 [3] [1] ⟨[], [], [], []⟩).W = [2] ∧
    ¬ (∀ x ∈ (enthalpySolveDG 1 1 [3] [1] ⟨[], [], [], []⟩).W, x ≤ 1) := by
  have hW : (enthalpySolveDG 1 1 [3] [1] ⟨[], [], [], []⟩).W = [2] := by
    show enthalpyWatersDG 1 1 [3] [1] = [2]
    unfold enthalpyWatersDG enthWaterDGDof
    norm_num [List.zipWith]
  refine ⟨hW, fun hall => ?_⟩
  have h2 := hall 2 (by rw [hW]; exact List.mem_singleton.mpr rfl)
  norm_num at h2

/-- Claim C4 (amended): per dof, the continuous variant's stored water
content lies in [0, 1]; the discontinuous variant's is only bounded below by
0 (no upper cap); the rheology-capped W_r lies in [0, 0.01] in both
variants. -/
theorem C4_water_bounds (ci L hv t0 : ℚ) (hci : 0 < ci) (hL : 0 < L) :
    (0 ≤ enthWaterContDof ci L hv t0 ∧ enthWaterContDof ci L hv t0 ≤ 1) ∧
    0 ≤ enthWaterDGDof ci L hv t0 ∧
    (0 ≤ capRheologyDof (enthWaterContDof ci L hv t0) ∧
      capRheologyDof (enthWaterContDof ci L hv t0) ≤ 0.01) ∧
    (0 ≤ capRheologyDof (enthWaterDGDof ci L hv t0) ∧
      capRheologyDof (enthWaterDGDof ci L hv t0) ≤ 0.01) := by
  have hdg : 0 ≤ enthWaterDGDof ci L hv t0 := by
    unfold enthWaterDGDof
    split_ifs with h
    · exact le_refl 0
    · exact warm_water_nonneg ci L hv t0 hci hL h
  have hcont : 0 ≤ enthWaterContDof ci L hv t0 ∧ enthWaterContDof ci L hv t0 ≤ 1 := by
    unfold enthWaterContDof
    simp only []
    split_ifs with h h1 h1
    · norm_num
    · norm_num
    · norm_num
    · refine ⟨warm_water_nonneg ci L hv t0 hci hL h, le_of_not_lt h1⟩
  exact ⟨hcont, hdg, capRheologyDof_bounds _ hcont.1, capRheologyDof_bounds _ hdg⟩

/-- Witness for C4: the amended theorem applied at ci = 1, L = 1, H = 3,
T0 = 1. -/
theorem C4_water_bounds_witness :
    (0 : ℚ) < 1 ∧ 0 ≤ enthWaterDGDof 1 1 3 1 :=
  ⟨by norm_num, (C4_water_bounds 1 1 3 1 (by norm_num) (by norm_num)).2.1⟩

/-- Claim C5 counterexample: the dSdt field left by FreeSurface.solve is the
result of the second projection applied to the mass/stiffness rate, not the
mass/stiffness result itself — the final assignment at line 1889 overwrites
it. -/
theorem C5_counterexample :
    (fsSolve true ⟨none⟩).dSdt = some (.projResult (.msResult true)) ∧
    (fsSolve true ⟨none⟩).dSdt ≠ some (.msResult true) := by
  constructor
  · rfl
  · intro h
    simp [fsSolve, fsMassStiffnessSolve, fsProjectionAssign] at h

/-- Claim C5 (amended): FreeSurface.solve first writes dSdt with the
mass/stiffness result (lumped or full solve), then the second, independent
linear projection reads that rate field, and its result is assigned back into
dSdt, overwriting it: the final stored dSdt is the projection output, with
the mass/stiffness rate surviving only as the projection's input.  In every
configuration the projection write is the last step and follows the
mass/stiffness write. -/
theorem C5_projection_overwrites_dSdt (lumped : Bool) (st : FSState) :
    (fsSolve lumped st).dSdt = some (.projResult (.msResult lumped)) ∧
    (∀ staticBC shock : Bool,
      (fsSolveTrace lumped staticBC shock).getLast?
          = some FSStep.writeDSdtFromProjection ∧
      FSStep.writeDSdtFromMassStiffness ∈ fsSolveTrace lumped staticBC shock) := by
  refine ⟨rfl, ?_⟩
  intro staticBC shock
  cases lumped <;> cases staticBC <;> cases shock <;> exact ⟨rfl, by decide⟩

/-- Claim C6 counterexample: with two Tikhonov-regularized controls of weight
1, the augmented objective contains only the term of the second control — the
loop at lines 1963-1978 rebinds R each iteration, discarding the first
control's term (which the claimed per-control list would include). -/
theorem C6_counterexample :
    includedRegTerms "Tikhonov" [(1, 0), (1, 1)] = .ok [⟨.tikhonov, 1, 1/2⟩] ∧
    includedRegTerms "Tikhonov" [(1, 0), (1, 1)]
      ≠ .ok (claimRegTerms "Tikhonov" [(1, 0), (1, 1)]) := by
  have h : includedRegTerms "Tikhonov" [(1, 0), (1, 1)]
      = .ok [⟨.tikhonov, 1, 1/2⟩] := by
    simp [includedRegTerms, regLoop, regBranch, Except.bind, Except.map,
      Option.toList]
  refine ⟨h, fun he => ?_⟩
  rw [h] at he
  injection he with he2
  simp [claimRegTerms, regKindOf] at he2

/-- Claim C6 (amended): for a recognized regularization type and a non-empty
control list, the augmented objective contains exactly one regularization
term — that of the last control in the list, scaled by its own halved weight;
for a single-control list this agrees with the claimed per-control list. -/
theorem C6_only_last_control_regularized (rt : String)
    (h : rt = "TV" ∨ rt = "Tikhonov") (pre : List (ℚ × Nat)) (a : ℚ) (c : Nat) :
    includedRegTerms rt (pre ++ [(a, c)]) = .ok [⟨regKindOf rt, c, (1/2) * a⟩] ∧
    (∀ (a0 : ℚ) (c0 : Nat),
      includedRegTerms rt [(a0, c0)] = .ok (claimRegTerms rt [(a0, c0)])) := by
  have hb := regBranch_recognized rt h
  constructor
  · unfold includedRegTerms
    rw [regLoop_append_last rt hb pre a c none]
    rfl
  · intro a0 c0
    unfold includedRegTerms
    rw [show [(a0, c0)] = ([] : List (ℚ × Nat)) ++ [(a0, c0)] from rfl,
      regLoop_append_last rt hb [] a0 c0 none]
    rfl

/-- Witness for C6: the amended theorem applied with regularization type TV
and the two-control list [(2, 5), (3, 7)]. -/
theorem C6_only_last_control_regularized_witness :
    ("TV" = "TV" ∨ "TV" = "Tikhonov") ∧
    includedRegTerms "TV" ([(2, 5)] ++ [(3, 7)])
      = .ok [⟨regKindOf "TV", 7, (1/2) * 3⟩] :=
  ⟨Or.inl rfl,
   (C6_only_last_control_regularized "TV" (Or.inl rfl) [(2, 5)] 3 7).1⟩

/-- Claim C7: after either enthalpy solve, the diagnosed temperature at every
dof equals min(H/ci, T0): H/ci where that is below the pressure-melting value
T0, and T0 where H/ci is at or above it. -/
theorem C7_temperature_capped_at_melting (ci L : ℚ) (H T0 : List ℚ)
    (st : EnthFields) :
    (enthalpySolveCont ci L H T0 st).T
        = List.zipWith (fun hv t0 => min (hv / ci) t0) H T0 ∧
    (enthalpySolveDG ci L H T0 st).T
        = List.zipWith (fun hv t0 => min (hv / ci) t0) H T0 := by
  have hdof : ∀ hv t0 : ℚ, enthTempDof ci hv t0 = min (hv / ci) t0 := by
    intro hv t0
    unfold enthTempDof
    rcases le_total (hv / ci) t0 with h | h
    · rw [min_eq_left h]
      split_ifs with h2
      · exact le_antisymm h2 h
      · rfl
    · rw [min_eq_right h, if_pos h]
  constructor
  · show enthalpyTemps ci H T0 = _
    unfold enthalpyTemps
    rw [funext fun hv => funext fun t0 => hdof hv t0]
  · show enthalpyTempsDG ci H T0 = _
    unfold enthalpyTempsDG enthTempDofDG
    rw [show (fun hv t0 : ℚ => if t0 ≤ hv / ci then t0 else hv / ci)
        = fun hv t0 => min (hv / ci) t0 from
      funext fun hv => funext fun t0 => hdof hv t0]

/-- Claim C8: in 'full' viscosity mode both momentum-balance formulations
build the same hardness coefficient for the shelf and the grounded
sub-domain, and that coefficient is
(E*a(T)*(1+181.25*W)*exp(-Q(T)/(R*T)))^(-1/n) with
(a, Q) = (1.1384496e-5, 6e4) for T < 263.15 and (5.45e10, 13.9e4)
otherwise. -/
theorem C8_full_thermo_hardness :
    stokesViscDispatch "full" = .ok ⟨.fullThermo, .fullThermo, false, false⟩ ∧
    bpViscDispatch "full" = .ok ⟨.fullThermo, .fullThermo, false, false⟩ ∧
    ∀ E W R T n : ℝ,
      b_fullThermo E W R T n
        = (E * ((if T < 263.15 then (1.1384496e-5 : ℝ) else 5.45e10)
                  * (1 + 181.25 * W))
            * Real.exp (-(if T < 263.15 then (6e4 : ℝ) else 13.9e4) / (R * T)))
          ^ (-1 / n) := by
  refine ⟨by decide, by decide, ?_⟩
  intro E W R T n
  unfold b_fullThermo a_T Q_T
  rfl

/-- Claim C9: VelocityBP.solve runs, in order: the Newton solve of the
horizontal velocity, the separate linear solve of the vertical velocity, the
statistical-beta re-evaluation exactly when init_beta_from_stats is
configured, and finally the pressure recomputation; the re-evaluation applies
the same clamped update as the initialization (same stored expression
beta_f), mapping every negative projected entry to 0 and keeping the rest. -/
theorem C9_bp_solve_order :
    (∀ s : Bool,
        (bpSolveSteps s).head? = some BPStep.newtonSolveHorizontal ∧
        (bpSolveSteps s)[1]? = some BPStep.linearSolveVertical ∧
        (bpSolveSteps s).getLast? = some BPStep.calcPressure ∧
        (BPStep.reevalStatBeta ∈ bpSolveSteps s ↔ s = true) ∧
        (s = true → bpSolveSteps s
            = [BPStep.newtonSolveHorizontal, BPStep.linearSolveVertical,
               BPStep.reevalStatBeta, BPStep.calcPressure])) ∧
    bpReevalStatBeta = bpInitStatBeta ∧
    (∀ (v : List ℚ) (x : ℚ), x ∈ bpReevalStatBeta v → 0 ≤ x) ∧
    (∀ v : List ℚ, bpReevalStatBeta v
        = v.map (fun x => if x < 0 then 0 else x)) :=
  ⟨fun s => by cases s <;> exact ⟨rfl, rfl, rfl, by decide, by decide⟩,
   rfl,
   fun v x hx => clampNonneg_mem_nonneg v x hx,
   fun v => rfl⟩

/-- Witness for C9: the clamp conjunct applied at the concrete projected
values [-3, 2] and the entry 0. -/
theorem C9_bp_solve_order_witness :
    (0 : ℚ) ∈ bpReevalStatBeta [-3, 2] ∧ (0 : ℚ) ≤ 0 := by
  have hm : (0 : ℚ) ∈ bpReevalStatBeta [-3, 2] := by
    show (0 : ℚ) ∈ clampNonneg [-3, 2]
    unfold clampNonneg
    norm_num
  exact ⟨hm, C9_bp_solve_order.2.2.1 [-3, 2] 0 hm⟩

/-- Claim C10: after either enthalpy solve, W0 holds exactly the value the
water-content field W held at entry — W0 is assigned from W before W is
overwritten with the newly diagnosed values. -/
theorem C10_W0_holds_previous_W (ci L : ℚ) (H T0 : List ℚ) (st : EnthFields) :
    (enthalpySolveCont ci L H T0 st).W0 = st.W ∧
    (enthalpySolveDG ci L H T0 st).W0 = st.W ∧
    (enthalpySolveCont ci L H T0 st).W = enthalpyWatersCont ci L H T0 ∧
    (enthalpySolveDG ci L H T0 st).W = enthalpyWatersDG ci L H T0 :=
  ⟨rfl, rfl, rfl, rfl⟩
